import Mathlib

/-!
Shallow embedding of the SuperSearch tool layer of the instantly-mcp repository:
the pydantic filter models of src/instantly_mcp/models/supersearch.py and the
request-body builders / adapters of src/instantly_mcp/tools/supersearch.py.

Python JSON-able values are embedded as `JVal`; Python dicts as ordered
association lists `List (String × JVal)` with Python assignment semantics
(`dictSet`: update in place if the key exists, else append).  The HTTP client is
a parameter: each adapter receives the transport outcome
(`Except String JVal`, error = the exception raised by the client) and returns
an `AdapterOutcome`, the adapter result (`Except.error` = an uncaught Python
exception propagating to the caller) together with the list of requests it
issued.  Final `json.dumps` serialization to text is outside the embedding: an
adapter result is the JSON value that would be serialized.
-/

/-- Embedding of Python JSON-able values (None, bool, int, str, list, dict). -/
inductive JVal : Type where
  | null : JVal
  | bool : Bool → JVal
  | num : Int → JVal
  | str : String → JVal
  | arr : List JVal → JVal
  | obj : List (String × JVal) → JVal
deriving Repr

/-- Python `x is None` on a JSON-able value. -/
def JVal.isNull : JVal → Bool
  | JVal.null => true
  | _ => false

/-- Python `x == []` on a JSON-able value. -/
def JVal.isEmptyArr : JVal → Bool
  | JVal.arr [] => true
  | _ => false

/-- Python `dict.get(k)`: the first value stored under `k`, if any. -/
def dictGet? : List (String × JVal) → String → Option JVal
  | [], _ => none
  | (k2, v) :: rest, k => if k2 = k then some v else dictGet? rest k

/-- Python `k in d`. -/
def dictContains (d : List (String × JVal)) (k : String) : Bool :=
  (dictGet? d k).isSome

/-- Python `d[k] = v`: overwrite in place if the key exists, else append. -/
def dictSet : List (String × JVal) → String → JVal → List (String × JVal)
  | [], k, v => [(k, v)]
  | (k2, v2) :: rest, k, v =>
    if k2 = k then (k, v) :: rest else (k2, v2) :: dictSet rest k v

/-- Python `d.get(k, default)`. -/
def pyGetD (d : List (String × JVal)) (k : String) (default : JVal) : JVal :=
  (dictGet? d k).getD default

/-- Python `d.get(k)` (default `None`). -/
def pyGet (d : List (String × JVal)) (k : String) : JVal :=
  pyGetD d k JVal.null

/-- Python truthiness of a JSON-able value. -/
def pyTruthy : JVal → Bool
  | JVal.null => false
  | JVal.bool b => b
  | JVal.num n => n != 0
  | JVal.str s => s != ""
  | JVal.arr xs => !xs.isEmpty
  | JVal.obj kvs => !kvs.isEmpty

/-- Python truthiness of an `Optional[str]` field (`None` and `""` are falsy). -/
def pyTruthyOptStr : Option String → Bool
  | none => false
  | some s => s != ""

/-- Python truthiness of an `Optional[int]` field (`None` and `0` are falsy). -/
def pyTruthyOptInt : Option Int → Bool
  | none => false
  | some n => n != 0

/-- Helper for `model_dump(exclude_none=True)`: a field contributes its key/value
pair when set and nothing when `None`. -/
def optField (k : String) : Option JVal → List (String × JVal)
  | some j => [(k, j)]
  | none => []

/-- Serialization of a `list[str]` field value. -/
def jStrArr (xs : List String) : JVal :=
  JVal.arr (xs.map JVal.str)

/-- Embeds models/supersearch.py lines 18-41, class `IncludeExcludeFilter`:
two `Optional[list[str]]` fields named `include` and `exclude` in the source
(`include` is a Lean keyword, hence the guillemets). -/
structure IncludeExcludeFilter where
  «include» : Option (List String) := none
  exclude : Option (List String) := none
deriving Repr, DecidableEq

/-- Embeds the Python method `IncludeExcludeFilter.model_dump`
(models/supersearch.py lines 25-41) as written: dump with `exclude_none=True`,
remove empty arrays, and if neither key remains emit `include` as an empty
array.  NOTE: pydantic v2 parent dumps serialize nested models through the
core serializer and never invoke a nested model's Python `model_dump`
override, and the adapters only ever dump the parent `SuperSearchFilters`
(tools/supersearch.py lines 58, 335, 379) - so this method is dead code on the
normalization path; `IncludeExcludeFilter.core_dump` below is what the program
actually emits for these fields. -/
def IncludeExcludeFilter.model_dump (f : IncludeExcludeFilter) : JVal :=
  let result := optField "include" (f.«include».map jStrArr) ++
                optField "exclude" (f.exclude.map jStrArr)
  let result := result.filter (fun kv => !kv.2.isEmptyArr)
  if !dictContains result "include" && !dictContains result "exclude" then
    JVal.obj (dictSet result "include" (JVal.arr []))
  else
    JVal.obj result

/-- Pydantic v2 core serialization of a nested `IncludeExcludeFilter` inside a
parent `model_dump(mode='json', exclude_none=True)`: only the `exclude_none`
kwarg propagates (drop `None` fields); empty lists are kept and no `include`
placeholder is ever inserted, because the Python override above is not
invoked. -/
def IncludeExcludeFilter.core_dump (f : IncludeExcludeFilter) : JVal :=
  JVal.obj (optField "include" (f.«include».map jStrArr) ++
            optField "exclude" (f.exclude.map jStrArr))

/-- Embeds models/supersearch.py lines 44-58, class `LocationItem`: five
`Optional[str]` fields.  `model_dump` is called without `by_alias`, so the
dumped key of `place_id` is the field name. -/
structure LocationItem where
  place_id : Option String := none
  label : Option String := none
  city : Option String := none
  state : Option String := none
  country : Option String := none
deriving Repr, DecidableEq

/-- Embeds `LocationItem.model_dump` (models/supersearch.py lines 60-64): dump
with `exclude_none=True`, so unset fields produce no key. -/
def LocationItem.model_dump (it : LocationItem) : JVal :=
  JVal.obj (optField "place_id" (it.place_id.map JVal.str) ++
            optField "label" (it.label.map JVal.str) ++
            optField "city" (it.city.map JVal.str) ++
            optField "state" (it.state.map JVal.str) ++
            optField "country" (it.country.map JVal.str))

/-- Embeds models/supersearch.py lines 67-72, class `LocationFilter`. -/
structure LocationFilter where
  «include» : Option (List LocationItem) := none
  exclude : Option (List LocationItem) := none
deriving Repr, DecidableEq

/-- Embeds `LocationFilter.model_dump` (models/supersearch.py lines 74-79):
dump with `exclude_none=True`; each present list serializes its items through
`LocationItem.model_dump`. -/
def LocationFilter.model_dump (f : LocationFilter) : JVal :=
  JVal.obj (optField "include" (f.«include».map (fun xs => JVal.arr (xs.map LocationItem.model_dump))) ++
            optField "exclude" (f.exclude.map (fun xs => JVal.arr (xs.map LocationItem.model_dump))))

/-- Embeds models/supersearch.py lines 82-173, class `SuperSearchFilters`.
Field names are already snake_case, so the dumped keys coincide with the
declared serialization aliases.  The two boolean flags are plain `bool` fields
defaulting to `False`. -/
structure SuperSearchFilters where
  locations : Option LocationFilter := none
  title : Option IncludeExcludeFilter := none
  department : Option (List String) := none
  level : Option (List String) := none
  company_name : Option IncludeExcludeFilter := none
  industry : Option IncludeExcludeFilter := none
  employee_count : Option (List String) := none
  revenue : Option (List String) := none
  domains : Option (List String) := none
  look_alike : Option String := none
  keyword_filter : Option IncludeExcludeFilter := none
  funding_type : Option (List String) := none
  news : Option (List String) := none
  skip_owned_leads : Bool := false
  show_one_lead_per_company : Bool := false
deriving Repr, DecidableEq

/-- Embeds `params.search_filters.model_dump(mode='json', exclude_none=True)`
(tools/supersearch.py line 58 and its copies): fields in declaration order,
`None` fields dropped.  Pydantic v2 serializes nested models through the core
serializer, propagating only `exclude_none` and bypassing Python `model_dump`
overrides, so the include/exclude-style fields go through
`IncludeExcludeFilter.core_dump`; the `LocationFilter`/`LocationItem`
overrides merely set `exclude_none` themselves, so routing those fields
through them coincides with the core behavior.  The two `bool` fields are
never `None` and always dump. -/
def SuperSearchFilters.model_dump (f : SuperSearchFilters) : List (String × JVal) :=
  optField "locations" (f.locations.map LocationFilter.model_dump) ++
  optField "title" (f.title.map IncludeExcludeFilter.core_dump) ++
  optField "department" (f.department.map jStrArr) ++
  optField "level" (f.level.map jStrArr) ++
  optField "company_name" (f.company_name.map IncludeExcludeFilter.core_dump) ++
  optField "industry" (f.industry.map IncludeExcludeFilter.core_dump) ++
  optField "employee_count" (f.employee_count.map jStrArr) ++
  optField "revenue" (f.revenue.map jStrArr) ++
  optField "domains" (f.domains.map jStrArr) ++
  optField "look_alike" (f.look_alike.map JVal.str) ++
  optField "keyword_filter" (f.keyword_filter.map IncludeExcludeFilter.core_dump) ++
  optField "funding_type" (f.funding_type.map jStrArr) ++
  optField "news" (f.news.map jStrArr) ++
  [("skip_owned_leads", JVal.bool f.skip_owned_leads),
   ("show_one_lead_per_company", JVal.bool f.show_one_lead_per_company)]

/-- Embeds the `for key, value in raw_filters.items(): if value is None: continue`
loop of the three search-shaped adapters. -/
def dropNone : List (String × JVal) → List (String × JVal)
  | [] => []
  | (k, v) :: rest => if v.isNull then dropNone rest else (k, v) :: dropNone rest

/-- Embeds the search-filters normalization shared verbatim by
`search_supersearch_leads` (tools/supersearch.py lines 58-72), `count_leads`
(lines 335-344) and `preview_leads` (lines 379-388): dump the model, drop `None`
values, then insert the two boolean flags when absent. -/
def buildSearchFilters (f : SuperSearchFilters) : List (String × JVal) :=
  let raw := f.model_dump
  let search_filters := dropNone raw
  let search_filters :=
    if dictContains search_filters "skip_owned_leads" then search_filters
    else dictSet search_filters "skip_owned_leads" (JVal.bool false)
  let search_filters :=
    if dictContains search_filters "show_one_lead_per_company" then search_filters
    else dictSet search_filters "show_one_lead_per_company" (JVal.bool false)
  search_filters

/-- Embeds the `EnrichmentType` Literal of models/supersearch.py lines 180-190:
nine fixed wire names. -/
inductive EnrichmentType : Type where
  | work_email_enrichment
  | fully_enriched_profile
  | email_verification
  | joblisting
  | technologies
  | news
  | funding
  | ai_enrichment
  | custom_flow
deriving Repr, DecidableEq

/-- Wire name of an enrichment type (the Literal string itself). -/
def EnrichmentType.toWire : EnrichmentType → String
  | EnrichmentType.work_email_enrichment => "work_email_enrichment"
  | EnrichmentType.fully_enriched_profile => "fully_enriched_profile"
  | EnrichmentType.email_verification => "email_verification"
  | EnrichmentType.joblisting => "joblisting"
  | EnrichmentType.technologies => "technologies"
  | EnrichmentType.news => "news"
  | EnrichmentType.funding => "funding"
  | EnrichmentType.ai_enrichment => "ai_enrichment"
  | EnrichmentType.custom_flow => "custom_flow"

mutual
/-- Python `str()` rendering as used inside f-strings: strings render bare,
containers via `repr` of their elements. -/
def pyStr : JVal → String
  | JVal.null => "None"
  | JVal.bool true => "True"
  | JVal.bool false => "False"
  | JVal.num n => toString n
  | JVal.str s => s
  | JVal.arr xs => "[" ++ pyReprList xs ++ "]"
  | JVal.obj kvs => "\x7b" ++ pyReprObj kvs ++ "\x7d"

/-- Python `repr()` rendering (strings gain quotes). -/
def pyRepr : JVal → String
  | JVal.null => "None"
  | JVal.bool true => "True"
  | JVal.bool false => "False"
  | JVal.num n => toString n
  | JVal.str s => "\x27" ++ s ++ "\x27"
  | JVal.arr xs => "[" ++ pyReprList xs ++ "]"
  | JVal.obj kvs => "\x7b" ++ pyReprObj kvs ++ "\x7d"

/-- Comma-separated reprs of list elements. -/
def pyReprList : List JVal → String
  | [] => ""
  | [x] => pyRepr x
  | x :: y :: rest => pyRepr x ++ ", " ++ pyReprList (y :: rest)

/-- Comma-separated reprs of dict entries. -/
def pyReprObj : List (String × JVal) → String
  | [] => ""
  | [(k, v)] => "\x27" ++ k ++ "\x27: " ++ pyRepr v
  | (k, v) :: kv2 :: rest => "\x27" ++ k ++ "\x27: " ++ pyRepr v ++ ", " ++ pyReprObj (kv2 :: rest)
end

/-- Thousands grouping over a reversed digit list; `k` counts digits already
emitted (helper for Python format spec `,`). -/
def commaGroupRev : List Char → Nat → List Char
  | [], _ => []
  | c :: rest, k =>
    if k ≠ 0 && k % 3 = 0 then ',' :: c :: commaGroupRev rest (k + 1)
    else c :: commaGroupRev rest (k + 1)

/-- Python `f"-Ellipsis-"` formatting of an int with format spec `,`. -/
def commaGroup (n : Int) : String :=
  let grouped := String.mk ((commaGroupRev ((toString n.natAbs).toList.reverse) 0).reverse)
  if n < 0 then "-" ++ grouped else grouped

/-- Python format spec `,` applied to a JSON-able value: integers gain
thousands separators; a non-integer here would raise ValueError in Python,
which no modelled claim touches. -/
def formatComma : JVal → String
  | JVal.num n => commaGroup n
  | v => pyStr v

/-- Python `len` on the sized values the adapters apply it to; `len` of a
non-sized value would raise in Python, not modelled. -/
def jLen : JVal → Nat
  | JVal.arr xs => xs.length
  | JVal.str s => s.length
  | JVal.obj kvs => kvs.length
  | _ => 0

/-- Python `v.get(k)` where `v` is expected to be a mapping; `.get` on a
non-mapping would raise in Python, modelled as `None`. -/
def jGetKey (v : JVal) (k : String) : JVal :=
  match v with
  | JVal.obj kvs => pyGet kvs k
  | _ => JVal.null

/-- Single request issued by an adapter against the transport collaborator. -/
structure Request where
  method : String
  path : String
  query : List (String × JVal) := []
  body : JVal := JVal.null
deriving Repr

/-- Result of one adapter invocation: the value it returns (`Except.error` = an
uncaught Python exception propagating to the caller) and the requests issued. -/
structure AdapterOutcome where
  result : Except String JVal
  requests : List Request
deriving Repr

/-- Embeds models/supersearch.py lines 206-253, class `SearchSuperSearchLeadsInput`
(post-validation values; `limit` defaults to 100). -/
structure SearchSuperSearchLeadsInput where
  list_id : Option String := none
  campaign_id : Option String := none
  search_filters : SuperSearchFilters
  enrichment_types : Option (List EnrichmentType) := none
  limit : Option Int := some 100
  search_name : Option String := none
  list_name : Option String := none
deriving Repr

/-- Embeds the body construction of `search_supersearch_leads`
(tools/supersearch.py lines 54-101): normalized filters, then resource
targeting (list checked first, campaign second, each assignment overwriting),
then enrichment flags, limit, and optional naming fields. -/
def search_supersearch_leads_body (params : SearchSuperSearchLeadsInput) : List (String × JVal) :=
  let search_filters := buildSearchFilters params.search_filters
  let body : List (String × JVal) := [("search_filters", JVal.obj search_filters)]
  let body :=
    if pyTruthyOptStr params.list_id then
      dictSet (dictSet body "resource_id" (JVal.str (params.list_id.getD "")))
        "resource_type" (JVal.num 2)
    else body
  let body :=
    if pyTruthyOptStr params.campaign_id then
      dictSet (dictSet body "resource_id" (JVal.str (params.campaign_id.getD "")))
        "resource_type" (JVal.num 1)
    else body
  let body :=
    match params.enrichment_types with
    | some (e :: es) =>
      (e :: es).foldl (fun b etype => dictSet b etype.toWire (JVal.bool true)) body
    | _ => dictSet body "work_email_enrichment" (JVal.bool true)
  let body :=
    if pyTruthyOptInt params.limit then dictSet body "limit" (JVal.num (params.limit.getD 0))
    else body
  let body :=
    if pyTruthyOptStr params.search_name then
      dictSet body "search_name" (JVal.str (params.search_name.getD ""))
    else body
  let body :=
    if pyTruthyOptStr params.list_name then
      dictSet body "list_name" (JVal.str (params.list_name.getD ""))
    else body
  body

/-- Embeds the `_next_steps` annotation of `search_supersearch_leads`
(tools/supersearch.py lines 113-119), including the Python `or` chain over the
three candidate id keys. -/
def searchAnnotate (result : JVal) : JVal :=
  match result with
  | JVal.obj kvs =>
    let resource_id :=
      if pyTruthy (pyGet kvs "resource_id") then pyGet kvs "resource_id"
      else if pyTruthy (pyGet kvs "list_id") then pyGet kvs "list_id"
      else pyGet kvs "campaign_id"
    if pyTruthy resource_id then
      JVal.obj (dictSet kvs "_next_steps" (JVal.str
        ("Enrichment started. Use get_enrichment_status(resource_id=\x27" ++ pyStr resource_id ++
         "\x27) to check progress, then list_leads to retrieve results.")))
    else JVal.obj kvs
  | other => other

/-- Embeds `search_supersearch_leads` (tools/supersearch.py lines 32-121):
build the body, POST once, and on a transport fault return the
`error`/`debug_payload` diagnostic instead of propagating. -/
def search_supersearch_leads (params : SearchSuperSearchLeadsInput)
    (transport : Except String JVal) : AdapterOutcome :=
  let body := search_supersearch_leads_body params
  let req : Request :=
    { method := "POST",
      path := "/supersearch-enrichment/enrich-leads-from-supersearch", body := JVal.obj body }
  match transport with
  | Except.error e =>
    { result := Except.ok (JVal.obj [("error", JVal.str e), ("debug_payload", JVal.obj body)]),
      requests := [req] }
  | Except.ok result =>
    { result := Except.ok (searchAnnotate result), requests := [req] }

/-- Embeds models/supersearch.py lines 256-263, class `GetEnrichmentStatusInput`. -/
structure GetEnrichmentStatusInput where
  resource_id : String
deriving Repr, DecidableEq

/-- Embeds `get_enrichment_status` (tools/supersearch.py lines 124-139): one GET
with no try/except, so a transport fault propagates unmodified. -/
def get_enrichment_status (params : GetEnrichmentStatusInput)
    (transport : Except String JVal) : AdapterOutcome :=
  let req : Request :=
    { method := "GET",
      path := "/supersearch-enrichment/" ++ params.resource_id }
  match transport with
  | Except.error e => { result := Except.error e, requests := [req] }
  | Except.ok result => { result := Except.ok result, requests := [req] }

/-- Embeds models/supersearch.py lines 352-369, class `GetEnrichmentHistoryInput`
(post-validation values; `limit` defaults to 50). -/
structure GetEnrichmentHistoryInput where
  resource_id : String
  limit : Option Int := some 50
  starting_after : Option String := none
deriving Repr, DecidableEq

/-- Embeds the `_pagination_hint` annotation of `get_enrichment_history`
(tools/supersearch.py lines 309-316). -/
def historyAnnotate (result : JVal) : JVal :=
  match result with
  | JVal.obj kvs =>
    let pagination := pyGetD kvs "pagination" (JVal.obj [])
    let next_cursor := jGetKey pagination "next_starting_after"
    if pyTruthy next_cursor then
      JVal.obj (dictSet kvs "_pagination_hint" (JVal.str
        ("MORE RESULTS AVAILABLE. Call get_enrichment_history with starting_after=\x27" ++
         pyStr next_cursor ++ "\x27 to get next page.")))
    else JVal.obj kvs
  | other => other

/-- Embeds `get_enrichment_history` (tools/supersearch.py lines 280-318): build
query params from truthy limit/cursor, one GET with no try/except, then the
pagination annotation. -/
def get_enrichment_history (params : GetEnrichmentHistoryInput)
    (transport : Except String JVal) : AdapterOutcome :=
  let query_params : List (String × JVal) := []
  let query_params :=
    if pyTruthyOptInt params.limit then
      dictSet query_params "limit" (JVal.num (params.limit.getD 0))
    else query_params
  let query_params :=
    if pyTruthyOptStr params.starting_after then
      dictSet query_params "starting_after" (JVal.str (params.starting_after.getD ""))
    else query_params
  let req : Request :=
    { method := "GET",
      path := "/supersearch-enrichment/history/" ++ params.resource_id, query := query_params }
  match transport with
  | Except.error e => { result := Except.error e, requests := [req] }
  | Except.ok result => { result := Except.ok (historyAnnotate result), requests := [req] }

/-- Modelled from the spec: the models module never defines `CountLeadsInput`
even though tools/supersearch.py line 26 imports it; per spec sections 2 and 8
the count adapter consumes only the ICP search filters. -/
structure CountLeadsInput where
  search_filters : SuperSearchFilters
deriving Repr

/-- Modelled from the spec: the models module never defines `PreviewLeadsInput`
even though tools/supersearch.py line 27 imports it; per spec sections 2 and 8
the preview adapter consumes only the ICP search filters. -/
structure PreviewLeadsInput where
  search_filters : SuperSearchFilters
deriving Repr

/-- Embeds the body construction of `count_leads` (tools/supersearch.py lines
335-346): the normalized filters are the only body key. -/
def count_leads_body (params : CountLeadsInput) : List (String × JVal) :=
  [("search_filters", JVal.obj (buildSearchFilters params.search_filters))]

/-- Embeds the `_guidance` annotation of `count_leads`
(tools/supersearch.py lines 356-361). -/
def countAnnotate (result : JVal) : JVal :=
  match result with
  | JVal.obj kvs =>
    let count := pyGetD kvs "number_of_leads" (JVal.num 0)
    JVal.obj (dictSet kvs "_guidance" (JVal.str
      ("Found " ++ formatComma count ++ " leads matching your criteria. " ++
       "To import and enrich these leads, use search_supersearch_leads with the same filters.")))
  | other => other

/-- Embeds `count_leads` (tools/supersearch.py lines 321-363): filters-only
body, POST once, diagnostic payload on a transport fault. -/
def count_leads (params : CountLeadsInput) (transport : Except String JVal) : AdapterOutcome :=
  let body := count_leads_body params
  let req : Request :=
    { method := "POST",
      path := "/supersearch-enrichment/count-leads-from-supersearch", body := JVal.obj body }
  match transport with
  | Except.error e =>
    { result := Except.ok (JVal.obj [("error", JVal.str e), ("debug_payload", JVal.obj body)]),
      requests := [req] }
  | Except.ok result =>
    { result := Except.ok (countAnnotate result), requests := [req] }

/-- Embeds the body construction of `preview_leads` (tools/supersearch.py lines
379-390): the normalized filters are the only body key. -/
def preview_leads_body (params : PreviewLeadsInput) : List (String × JVal) :=
  [("search_filters", JVal.obj (buildSearchFilters params.search_filters))]

/-- Embeds the `_guidance` annotation of `preview_leads`
(tools/supersearch.py lines 400-406). -/
def previewAnnotate (result : JVal) : JVal :=
  match result with
  | JVal.obj kvs =>
    let count := pyGetD kvs "number_of_leads" (JVal.num 0)
    let leads := pyGetD kvs "leads" (JVal.arr [])
    JVal.obj (dictSet kvs "_guidance" (JVal.str
      ("Previewing " ++ toString (jLen leads) ++ " sample leads from " ++ formatComma count ++
       " total matches. To import and enrich these leads, use search_supersearch_leads with the same filters.")))
  | other => other

/-- Embeds `preview_leads` (tools/supersearch.py lines 366-408): filters-only
body, POST once, diagnostic payload on a transport fault. -/
def preview_leads (params : PreviewLeadsInput) (transport : Except String JVal) : AdapterOutcome :=
  let body := preview_leads_body params
  let req : Request :=
    { method := "POST",
      path := "/supersearch-enrichment/preview-leads-from-supersearch", body := JVal.obj body }
  match transport with
  | Except.error e =>
    { result := Except.ok (JVal.obj [("error", JVal.str e), ("debug_payload", JVal.obj body)]),
      requests := [req] }
  | Except.ok result =>
    { result := Except.ok (previewAnnotate result), requests := [req] }

/-- Modelled from the spec: the models module never defines
`UpdateEnrichmentSettingsInput` even though tools/supersearch.py line 28 imports
it; per spec sections 3 and 7 the settings-update adapter takes a resource id
and three optional boolean settings. -/
structure UpdateEnrichmentSettingsInput where
  resource_id : String
  auto_update : Option Bool := none
  skip_rows_without_email : Option Bool := none
  is_evergreen : Option Bool := none
deriving Repr, DecidableEq

/-- Embeds `update_enrichment_settings` (tools/supersearch.py lines 411-447):
collect the is-not-None settings; with an empty body return the structured
`error`/`hint` object without any network call, otherwise PATCH once with a
diagnostic payload on a transport fault. -/
def update_enrichment_settings (params : UpdateEnrichmentSettingsInput)
    (transport : Except String JVal) : AdapterOutcome :=
  let body : List (String × JVal) := []
  let body :=
    match params.auto_update with
    | some b => dictSet body "auto_update" (JVal.bool b)
    | none => body
  let body :=
    match params.skip_rows_without_email with
    | some b => dictSet body "skip_rows_without_email" (JVal.bool b)
    | none => body
  let body :=
    match params.is_evergreen with
    | some b => dictSet body "is_evergreen" (JVal.bool b)
    | none => body
  if body.isEmpty then
    { result := Except.ok (JVal.obj
        [("error", JVal.str "No settings provided to update"),
         ("hint", JVal.str "Provide at least one of: auto_update, skip_rows_without_email, is_evergreen")]),
      requests := [] }
  else
    let req : Request :=
      { method := "PATCH",
        path := "/supersearch-enrichment/" ++ params.resource_id ++ "/settings", body := JVal.obj body }
    match transport with
    | Except.error e =>
      { result := Except.ok (JVal.obj [("error", JVal.str e), ("debug_payload", JVal.obj body)]),
        requests := [req] }
    | Except.ok result => { result := Except.ok result, requests := [req] }

/-- Python attribute store of a pydantic model instance: field name to value,
in declaration order. -/
structure PyObject where
  attrs : List (String × JVal)
deriving Repr

/-- Python attribute access: raises `AttributeError` when the object has no
such attribute. -/
def PyObject.getattr (o : PyObject) (name : String) : Except String JVal :=
  match dictGet? o.attrs name with
  | some v => Except.ok v
  | none => Except.error ("AttributeError: " ++ name)

/-- Attribute access known to succeed (used only for fields the class declares);
missing attributes default to `None` here, never reached on real instances. -/
def PyObject.getD (o : PyObject) (name : String) : JVal :=
  (dictGet? o.attrs name).getD JVal.null

/-- Field names class `CreateAIEnrichmentInput` declares
(models/supersearch.py lines 296-329), in declaration order. -/
def createAIEnrichmentInputFields : List String :=
  ["resource_id", "prompt", "output_column", "model", "input_columns"]

/-- Instances of `CreateAIEnrichmentInput` (`extra="ignore"`) carry exactly the
declared fields. -/
def isCreateAIEnrichmentInstance (o : PyObject) : Prop :=
  o.attrs.map Prod.fst = createAIEnrichmentInputFields

/-- Names the models module `models/supersearch.py` defines at top level. -/
def supersearchModelsDefinedNames : List String :=
  ["IncludeExcludeFilter", "LocationItem", "LocationFilter", "SuperSearchFilters",
   "EnrichmentType", "AIModelType", "SearchSuperSearchLeadsInput",
   "GetEnrichmentStatusInput", "CreateEnrichmentInput", "CreateAIEnrichmentInput",
   "RunEnrichmentInput", "GetEnrichmentHistoryInput"]

/-- Names `tools/supersearch.py` lines 19-29 import from the models module. -/
def supersearchToolsImportedNames : List String :=
  ["SearchSuperSearchLeadsInput", "GetEnrichmentStatusInput", "CreateEnrichmentInput",
   "CreateAIEnrichmentInput", "RunEnrichmentInput", "GetEnrichmentHistoryInput",
   "CountLeadsInput", "PreviewLeadsInput", "UpdateEnrichmentSettingsInput"]

/-- Embeds the body construction of `create_ai_enrichment`
(tools/supersearch.py lines 212-227), with Python attribute reads made explicit
because the adapter reads attributes the input class never declares: the dict
literal evaluates its values left to right, so `params.resource_type` is read
right after `params.resource_id`. -/
def create_ai_enrichment_body (params : PyObject) : Except String JVal := do
  let resource_id ← params.getattr "resource_id"
  let resource_type ← params.getattr "resource_type"
  let prompt ← params.getattr "prompt"
  let output_column ← params.getattr "output_column"
  let model_version ← params.getattr "model_version"
  let body : List (String × JVal) :=
    [("resource_id", resource_id), ("resource_type", resource_type),
     ("prompt", prompt), ("output_column", output_column),
     ("model_version", model_version)]
  let input_columns ← params.getattr "input_columns"
  let body := if pyTruthy input_columns then dictSet body "input_columns" input_columns else body
  let overwrite ← params.getattr "overwrite"
  let body := if !overwrite.isNull then dictSet body "overwrite" overwrite else body
  let auto_update ← params.getattr "auto_update"
  let body := if !auto_update.isNull then dictSet body "auto_update" auto_update else body
  let limit ← params.getattr "limit"
  let body := if !limit.isNull then dictSet body "limit" limit else body
  return JVal.obj body

/-- Embeds the `_next_steps` annotation of `create_ai_enrichment`
(tools/supersearch.py lines 238-242); `resource_id` and `output_column` are
declared fields, so their reads succeed on real instances. -/
def aiAnnotate (params : PyObject) (result : JVal) : JVal :=
  match result with
  | JVal.obj kvs =>
    JVal.obj (dictSet kvs "_next_steps" (JVal.str
      ("AI enrichment started. Use get_enrichment_status(resource_id=\x27" ++
       pyStr (params.getD "resource_id") ++
       "\x27) to check progress. Results will appear in the \x27" ++
       pyStr (params.getD "output_column") ++ "\x27 column.")))
  | other => other

/-- Embeds `create_ai_enrichment` (tools/supersearch.py lines 185-244): the body
construction sits outside the try block, so an `AttributeError` raised there
propagates before any POST; only a transport fault is caught. -/
def create_ai_enrichment (params : PyObject) (transport : Except String JVal) : AdapterOutcome :=
  match create_ai_enrichment_body params with
  | Except.error e => { result := Except.error e, requests := [] }
  | Except.ok body =>
    let req : Request :=
      { method := "POST", path := "/supersearch-enrichment/ai", body := body }
    match transport with
    | Except.error e =>
      { result := Except.ok (JVal.obj
          [("error", JVal.str e), ("debug_payload", body),
           ("hint", JVal.str "Check that model_version is one of: 3.5, 4.0, gpt-4o, gpt-4.1, gpt-4.1-mini, claude-3.7-sonnet, o3")]),
        requests := [req] }
    | Except.ok result =>
      { result := Except.ok (aiAnnotate params result), requests := [req] }

/-- Embeds the pydantic validation of `SearchSuperSearchLeadsInput.limit`
(models/supersearch.py lines 238-243): `Optional[int]`, default 100, `ge=1`,
`le=10000`; validation happens at model construction, before the adapter and
hence before any network call. -/
def validateSearchLeadsLimit : Option Int → Except String (Option Int)
  | none => Except.ok (some 100)
  | some n =>
    if n < 1 then Except.error "Input should be greater than or equal to 1"
    else if 10000 < n then Except.error "Input should be less than or equal to 10000"
    else Except.ok (some n)

/-- Embeds the pydantic validation of `GetEnrichmentHistoryInput.limit`
(models/supersearch.py lines 360-365): `Optional[int]`, default 50, `ge=1`,
`le=100`. -/
def validateHistoryLimit : Option Int → Except String (Option Int)
  | none => Except.ok (some 50)
  | some n =>
    if n < 1 then Except.error "Input should be greater than or equal to 1"
    else if 100 < n then Except.error "Input should be less than or equal to 100"
    else Except.ok (some n)

/-- Embeds Python `str.strip()` as applied by `str_strip_whitespace=True`:
drop leading and trailing whitespace characters. -/
def pyStrip (s : String) : String :=
  String.mk (((s.toList.dropWhile Char.isWhitespace).reverse.dropWhile
    Char.isWhitespace).reverse)

/-- Embeds the pydantic validation of `GetEnrichmentStatusInput.resource_id`
(models/supersearch.py lines 256-263): a required `str` with
`str_strip_whitespace=True`.  Pydantic rejects a missing field but the model
declares no minimum length, so any string - including the empty one - passes. -/
def validateResourceId : Option String → Except String String
  | none => Except.error "Field required"
  | some s => Except.ok (pyStrip s)

/-- Validation-then-adapter pipeline for the status endpoint: a validation
failure surfaces immediately and no request is ever issued. -/
def get_enrichment_status_endpoint (raw_resource_id : Option String)
    (transport : Except String JVal) : AdapterOutcome :=
  match validateResourceId raw_resource_id with
  | Except.error e => { result := Except.error e, requests := [] }
  | Except.ok rid => get_enrichment_status { resource_id := rid } transport

/-! Helper lemmas about the dict embedding. -/

theorem dictGet?_dictSet (d : List (String × JVal)) (k2 k : String) (v : JVal) :
    dictGet? (dictSet d k2 v) k = if k2 = k then some v else dictGet? d k := by
  induction d with
  | nil => simp [dictSet, dictGet?]
  | cons kv rest ih =>
    obtain ⟨a, b⟩ := kv
    by_cases h1 : a = k2
    · subst h1
      by_cases h2 : a = k <;> simp [dictSet, dictGet?, h2]
    · by_cases h2 : a = k
      · subst h2
        simp [dictSet, dictGet?, h1, Ne.symm h1]
      · simp [dictSet, dictGet?, h1, h2, ih]

theorem dictGet?_append (d1 d2 : List (String × JVal)) (k : String) :
    dictGet? (d1 ++ d2) k =
      match dictGet? d1 k with
      | some v => some v
      | none => dictGet? d2 k := by
  induction d1 with
  | nil => simp [dictGet?]
  | cons kv rest ih =>
    obtain ⟨a, b⟩ := kv
    by_cases h : a = k <;> simp [dictGet?, h, ih]

theorem dictGet?_optField (k1 : String) (v : Option JVal) (k2 : String) :
    dictGet? (optField k1 v) k2 = if k1 = k2 then v else none := by
  cases v with
  | none => simp [optField, dictGet?]
  | some j => by_cases h : k1 = k2 <;> simp [optField, dictGet?, h]

theorem dropNone_append (d1 d2 : List (String × JVal)) :
    dropNone (d1 ++ d2) = dropNone d1 ++ dropNone d2 := by
  induction d1 with
  | nil => simp [dropNone]
  | cons kv rest ih =>
    obtain ⟨a, b⟩ := kv
    by_cases h : b.isNull <;> simp [dropNone, h, ih]

theorem dropNone_optField_map {α : Type} (k : String) (v : Option α) (g : α → JVal)
    (h : ∀ a, (g a).isNull = false) :
    dropNone (optField k (v.map g)) = optField k (v.map g) := by
  cases v with
  | none => rfl
  | some a => simp [optField, dropNone, h a]

theorem locationFilter_dump_not_null (x : LocationFilter) :
    (LocationFilter.model_dump x).isNull = false := rfl

theorem includeExcludeFilter_core_dump_not_null (x : IncludeExcludeFilter) :
    (IncludeExcludeFilter.core_dump x).isNull = false := rfl

theorem jStrArr_not_null (xs : List String) : (jStrArr xs).isNull = false := rfl

theorem JVal.str_not_null (s : String) : (JVal.str s).isNull = false := rfl

theorem dropNone_model_dump (f : SuperSearchFilters) :
    dropNone f.model_dump = f.model_dump := by
  unfold SuperSearchFilters.model_dump
  simp only [dropNone_append]
  rw [dropNone_optField_map _ _ _ locationFilter_dump_not_null,
      dropNone_optField_map _ _ _ includeExcludeFilter_core_dump_not_null,
      dropNone_optField_map _ _ _ includeExcludeFilter_core_dump_not_null,
      dropNone_optField_map _ _ _ includeExcludeFilter_core_dump_not_null,
      dropNone_optField_map _ _ _ includeExcludeFilter_core_dump_not_null,
      dropNone_optField_map _ _ _ jStrArr_not_null,
      dropNone_optField_map _ _ _ jStrArr_not_null,
      dropNone_optField_map _ _ _ jStrArr_not_null,
      dropNone_optField_map _ _ _ jStrArr_not_null,
      dropNone_optField_map _ _ _ jStrArr_not_null,
      dropNone_optField_map _ _ _ jStrArr_not_null,
      dropNone_optField_map _ _ _ jStrArr_not_null,
      dropNone_optField_map _ _ _ JVal.str_not_null]
  rfl

theorem dictGet?_model_dump_skip (f : SuperSearchFilters) :
    dictGet? f.model_dump "skip_owned_leads" = some (JVal.bool f.skip_owned_leads) := by
  simp [SuperSearchFilters.model_dump, dictGet?_append, dictGet?_optField, dictGet?]

theorem dictGet?_model_dump_show (f : SuperSearchFilters) :
    dictGet? f.model_dump "show_one_lead_per_company" =
      some (JVal.bool f.show_one_lead_per_company) := by
  simp [SuperSearchFilters.model_dump, dictGet?_append, dictGet?_optField, dictGet?]

theorem buildSearchFilters_eq (f : SuperSearchFilters) :
    buildSearchFilters f = f.model_dump := by
  unfold buildSearchFilters
  dsimp only
  rw [dropNone_model_dump]
  simp [dictContains, dictGet?_model_dump_skip, dictGet?_model_dump_show]

theorem dictGet?_model_dump_locations (f : SuperSearchFilters) :
    dictGet? f.model_dump "locations" = f.locations.map LocationFilter.model_dump := by
  cases h : f.locations <;>
    simp [SuperSearchFilters.model_dump, dictGet?_append, dictGet?_optField, dictGet?, h]

theorem dictGet?_model_dump_title (f : SuperSearchFilters) :
    dictGet? f.model_dump "title" = f.title.map IncludeExcludeFilter.core_dump := by
  cases h : f.title <;>
    simp [SuperSearchFilters.model_dump, dictGet?_append, dictGet?_optField, dictGet?, h]

theorem dictGet?_model_dump_company_name (f : SuperSearchFilters) :
    dictGet? f.model_dump "company_name" = f.company_name.map IncludeExcludeFilter.core_dump := by
  cases h : f.company_name <;>
    simp [SuperSearchFilters.model_dump, dictGet?_append, dictGet?_optField, dictGet?, h]

theorem dictGet?_model_dump_industry (f : SuperSearchFilters) :
    dictGet? f.model_dump "industry" = f.industry.map IncludeExcludeFilter.core_dump := by
  cases h : f.industry <;>
    simp [SuperSearchFilters.model_dump, dictGet?_append, dictGet?_optField, dictGet?, h]

theorem dictGet?_model_dump_keyword_filter (f : SuperSearchFilters) :
    dictGet? f.model_dump "keyword_filter" = f.keyword_filter.map IncludeExcludeFilter.core_dump := by
  cases h : f.keyword_filter <;>
    simp [SuperSearchFilters.model_dump, dictGet?_append, dictGet?_optField, dictGet?, h]

theorem dictGet?_model_dump_department (f : SuperSearchFilters) :
    dictGet? f.model_dump "department" = f.department.map jStrArr := by
  cases h : f.department <;>
    simp [SuperSearchFilters.model_dump, dictGet?_append, dictGet?_optField, dictGet?, h]

theorem dictGet?_model_dump_level (f : SuperSearchFilters) :
    dictGet? f.model_dump "level" = f.level.map jStrArr := by
  cases h : f.level <;>
    simp [SuperSearchFilters.model_dump, dictGet?_append, dictGet?_optField, dictGet?, h]

theorem dictGet?_model_dump_employee_count (f : SuperSearchFilters) :
    dictGet? f.model_dump "employee_count" = f.employee_count.map jStrArr := by
  cases h : f.employee_count <;>
    simp [SuperSearchFilters.model_dump, dictGet?_append, dictGet?_optField, dictGet?, h]

theorem dictGet?_model_dump_revenue (f : SuperSearchFilters) :
    dictGet? f.model_dump "revenue" = f.revenue.map jStrArr := by
  cases h : f.revenue <;>
    simp [SuperSearchFilters.model_dump, dictGet?_append, dictGet?_optField, dictGet?, h]

theorem dictGet?_model_dump_domains (f : SuperSearchFilters) :
    dictGet? f.model_dump "domains" = f.domains.map jStrArr := by
  cases h : f.domains <;>
    simp [SuperSearchFilters.model_dump, dictGet?_append, dictGet?_optField, dictGet?, h]

theorem dictGet?_model_dump_funding_type (f : SuperSearchFilters) :
    dictGet? f.model_dump "funding_type" = f.funding_type.map jStrArr := by
  cases h : f.funding_type <;>
    simp [SuperSearchFilters.model_dump, dictGet?_append, dictGet?_optField, dictGet?, h]

theorem dictGet?_model_dump_news (f : SuperSearchFilters) :
    dictGet? f.model_dump "news" = f.news.map jStrArr := by
  cases h : f.news <;>
    simp [SuperSearchFilters.model_dump, dictGet?_append, dictGet?_optField, dictGet?, h]

theorem dictGet?_etypesFold (es : List EnrichmentType) (b : List (String × JVal)) (k : String)
    (hk : ∀ e : EnrichmentType, e.toWire ≠ k) :
    dictGet? (es.foldl (fun acc e => dictSet acc e.toWire (JVal.bool true)) b) k
      = dictGet? b k := by
  induction es generalizing b with
  | nil => rfl
  | cons e es ih => simp [List.foldl_cons, dictGet?_dictSet, ih, hk e]

theorem dictGet?_search_body_search_filters (params : SearchSuperSearchLeadsInput) :
    dictGet? (search_supersearch_leads_body params) "search_filters"
      = some (JVal.obj (buildSearchFilters params.search_filters)) := by
  have hk : ∀ e : EnrichmentType, e.toWire ≠ "search_filters" := by
    intro e; cases e <;> decide
  unfold search_supersearch_leads_body
  dsimp only
  rcases params.enrichment_types with _ | (_ | ⟨e, es⟩) <;>
    split_ifs <;>
      simp [dictGet?_dictSet, dictGet?_etypesFold _ _ _ hk, dictGet?]
  all_goals exact hk e

/-! Claim theorems. -/

/-- C1: when `search_supersearch_leads` is invoked with both `list_id` and
`campaign_id` non-empty, the field assignment that happens last wins: the built
body ends with `resource_id` = the campaign id and `resource_type` = 1
(campaign), even though the documented precedence says list takes precedence
(campaign is checked second and overwrites). -/
theorem C1_both_ids_campaign_wins (params : SearchSuperSearchLeadsInput)
    (hl : pyTruthyOptStr params.list_id = true)
    (hc : pyTruthyOptStr params.campaign_id = true) :
    dictGet? (search_supersearch_leads_body params) "resource_id"
        = some (JVal.str (params.campaign_id.getD "")) ∧
    dictGet? (search_supersearch_leads_body params) "resource_type"
        = some (JVal.num 1) := by
  have hk1 : ∀ e : EnrichmentType, e.toWire ≠ "resource_id" := by
    intro e; cases e <;> decide
  have hk2 : ∀ e : EnrichmentType, e.toWire ≠ "resource_type" := by
    intro e; cases e <;> decide
  refine ⟨?_, ?_⟩
  · unfold search_supersearch_leads_body
    dsimp only
    simp only [hl, hc]
    rcases params.enrichment_types with _ | (_ | ⟨e, es⟩) <;>
      split_ifs <;>
        simp [dictGet?_dictSet, dictGet?_etypesFold _ _ _ hk1, dictGet?]
    all_goals exact hk1 e
  · unfold search_supersearch_leads_body
    dsimp only
    simp only [hl, hc]
    rcases params.enrichment_types with _ | (_ | ⟨e, es⟩) <;>
      split_ifs <;>
        simp [dictGet?_dictSet, dictGet?_etypesFold _ _ _ hk2, dictGet?]
    all_goals exact hk2 e

/-- Witness for C1: both identifiers set on a concrete input; the campaign id
wins. -/
theorem C1_both_ids_campaign_wins_witness :
    pyTruthyOptStr (some "list-123") = true ∧
    pyTruthyOptStr (some "camp-456") = true ∧
    (dictGet? (search_supersearch_leads_body
        { list_id := some "list-123", campaign_id := some "camp-456", search_filters := {} })
        "resource_id" = some (JVal.str "camp-456") ∧
     dictGet? (search_supersearch_leads_body
        { list_id := some "list-123", campaign_id := some "camp-456", search_filters := {} })
        "resource_type" = some (JVal.num 1)) :=
  ⟨rfl, rfl, C1_both_ids_campaign_wins _ rfl rfl⟩

/-- C5: for every `SuperSearchFilters` input, the normalized `search_filters`
mapping used by the search, count and preview adapters contains both
`skip_owned_leads` and `show_one_lead_per_company` with boolean values
(the model defaults them to false when the caller does not set them), never
None and never absent; and each of the three adapter bodies carries exactly
that normalized mapping under `search_filters`. -/
theorem C5_boolean_flags_always_present (f : SuperSearchFilters)
    (ps : SearchSuperSearchLeadsInput) (pc : CountLeadsInput) (pp : PreviewLeadsInput) :
    dictGet? (buildSearchFilters f) "skip_owned_leads"
        = some (JVal.bool f.skip_owned_leads) ∧
    dictGet? (buildSearchFilters f) "show_one_lead_per_company"
        = some (JVal.bool f.show_one_lead_per_company) ∧
    dictGet? (search_supersearch_leads_body ps) "search_filters"
        = some (JVal.obj (buildSearchFilters ps.search_filters)) ∧
    dictGet? (count_leads_body pc) "search_filters"
        = some (JVal.obj (buildSearchFilters pc.search_filters)) ∧
    dictGet? (preview_leads_body pp) "search_filters"
        = some (JVal.obj (buildSearchFilters pp.search_filters)) := by
  refine ⟨?_, ?_, dictGet?_search_body_search_filters ps, ?_, ?_⟩
  · rw [buildSearchFilters_eq]; exact dictGet?_model_dump_skip f
  · rw [buildSearchFilters_eq]; exact dictGet?_model_dump_show f
  · simp [count_leads_body, dictGet?]
  · simp [preview_leads_body, dictGet?]

/-- C6: the exact body built by `search_supersearch_leads` for the example
input (title include CEO; industry include Technology, Software; limit 5; no
campaign_id; list_id abc): filters plus the two false flags, resource_id abc
with resource_type 2 (list), the default work_email_enrichment flag, and
limit 5, in this insertion order. -/
theorem C6_example_body :
    search_supersearch_leads_body
      { list_id := some "abc",
        search_filters :=
          { title := some { «include» := some ["CEO"] },
            industry := some { «include» := some ["Technology", "Software"] } },
        limit := some 5 }
      = [("search_filters", JVal.obj
            [("title", JVal.obj [("include", JVal.arr [JVal.str "CEO"])]),
             ("industry", JVal.obj
               [("include", JVal.arr [JVal.str "Technology", JVal.str "Software"])]),
             ("skip_owned_leads", JVal.bool false),
             ("show_one_lead_per_company", JVal.bool false)]),
         ("resource_id", JVal.str "abc"),
         ("resource_type", JVal.num 2),
         ("work_email_enrichment", JVal.bool true),
         ("limit", JVal.num 5)] := rfl

/-- C9: the bodies built by `count_leads` and `preview_leads` contain only the
`search_filters` key: no enrichment-type flag, no limit, no resource_id, and in
fact nothing but `search_filters`. -/
theorem C9_count_preview_filters_only (pc : CountLeadsInput) (pp : PreviewLeadsInput)
    (k : String) (hk : k ≠ "search_filters") (e : EnrichmentType) :
    (count_leads_body pc).map Prod.fst = ["search_filters"] ∧
    (preview_leads_body pp).map Prod.fst = ["search_filters"] ∧
    dictGet? (count_leads_body pc) k = none ∧
    dictGet? (preview_leads_body pp) k = none ∧
    dictGet? (count_leads_body pc) e.toWire = none ∧
    dictGet? (preview_leads_body pp) e.toWire = none ∧
    dictGet? (count_leads_body pc) "limit" = none ∧
    dictGet? (preview_leads_body pp) "limit" = none ∧
    dictGet? (count_leads_body pc) "resource_id" = none ∧
    dictGet? (preview_leads_body pp) "resource_id" = none := by
  have hc : ∀ k2 : String, k2 ≠ "search_filters" → dictGet? (count_leads_body pc) k2 = none := by
    intro k2 hk2
    simp [count_leads_body, dictGet?, Ne.symm hk2]
  have hp : ∀ k2 : String, k2 ≠ "search_filters" → dictGet? (preview_leads_body pp) k2 = none := by
    intro k2 hk2
    simp [preview_leads_body, dictGet?, Ne.symm hk2]
  exact ⟨rfl, rfl, hc k hk, hp k hk,
    hc _ (by cases e <;> decide), hp _ (by cases e <;> decide),
    hc _ (by decide), hp _ (by decide), hc _ (by decide), hp _ (by decide)⟩

/-- Witness for C9 at a concrete input, key and enrichment type. -/
theorem C9_count_preview_filters_only_witness :
    ("resource_type" ≠ "search_filters") ∧
    ((count_leads_body { search_filters := {} }).map Prod.fst = ["search_filters"] ∧
     (preview_leads_body { search_filters := {} }).map Prod.fst = ["search_filters"] ∧
     dictGet? (count_leads_body { search_filters := {} }) "resource_type" = none ∧
     dictGet? (preview_leads_body { search_filters := {} }) "resource_type" = none ∧
     dictGet? (count_leads_body { search_filters := {} })
       EnrichmentType.work_email_enrichment.toWire = none ∧
     dictGet? (preview_leads_body { search_filters := {} })
       EnrichmentType.work_email_enrichment.toWire = none ∧
     dictGet? (count_leads_body { search_filters := {} }) "limit" = none ∧
     dictGet? (preview_leads_body { search_filters := {} }) "limit" = none ∧
     dictGet? (count_leads_body { search_filters := {} }) "resource_id" = none ∧
     dictGet? (preview_leads_body { search_filters := {} }) "resource_id" = none) :=
  ⟨by decide,
   C9_count_preview_filters_only { search_filters := {} } { search_filters := {} }
     "resource_type" (by decide) EnrichmentType.work_email_enrichment⟩

/-- C3 (code bug): the spec (and the in-source `IncludeExcludeFilter.model_dump`
override, whose own comment says to return at least `include` as an empty
array) intends a supplied include/exclude-style filter with empty or unset
lists to normalize to the `include: []` placeholder, but pydantic v2 parent
dumps bypass nested Python `model_dump` overrides, so the program actually
emits an empty object (or a bare `exclude: []`), never the placeholder; the
flat-array half of the claim holds: an unset department is omitted entirely.
The theorem evaluates the code at the failing input, exhibits the divergence
between the dead override and the core serialization the adapters really use,
and confirms the flat-array omission. -/
theorem C3_placeholder_never_reaches_wire :
    dictGet? (buildSearchFilters { title := some {} }) "title" = some (JVal.obj []) ∧
    dictGet? (buildSearchFilters { title := some { exclude := some [] } }) "title"
      = some (JVal.obj [("exclude", JVal.arr [])]) ∧
    dictGet? (buildSearchFilters
        { industry := some { «include» := some [], exclude := some [] } }) "industry"
      = some (JVal.obj [("include", JVal.arr []), ("exclude", JVal.arr [])]) ∧
    IncludeExcludeFilter.model_dump {} = JVal.obj [("include", JVal.arr [])] ∧
    IncludeExcludeFilter.core_dump {} = JVal.obj [] ∧
    IncludeExcludeFilter.model_dump {} ≠ IncludeExcludeFilter.core_dump {} ∧
    dictGet? (buildSearchFilters { title := some {} }) "department" = none ∧
    dictGet? (buildSearchFilters {}) "department" = none := by
  refine ⟨rfl, rfl, rfl, rfl, rfl, ?_, rfl, rfl⟩
  intro h
  simp [IncludeExcludeFilter.model_dump, IncludeExcludeFilter.core_dump, optField,
    dictContains, dictGet?, dictSet] at h


/-- C4 counterexample: a supplied location filter whose include and exclude
lists are both empty does NOT disappear from the normalized filters - the
`locations` key is present, with value include [] / exclude [], contradicting
the claim that the body then contains no locations key at all. -/
theorem C4_counterexample :
    dictGet? (buildSearchFilters
        { locations := some { «include» := some [], exclude := some [] } }) "locations"
      = some (JVal.obj [("include", JVal.arr []), ("exclude", JVal.arr [])]) ∧
    (dictGet? (buildSearchFilters
        { locations := some { «include» := some [], exclude := some [] } }) "locations").isSome
      = true :=
  ⟨rfl, rfl⟩

/-- C4 (amended): the normalized body contains no `locations` key exactly when
the locations filter itself is unset; a supplied locations filter with both
lists empty keeps the key (as include [] / exclude []); and a location item
with only state and country set normalizes to an object with no `city`,
`place_id` or `label` key. -/
theorem C4_locations_amended (f : SuperSearchFilters) (it : LocationItem)
    (hf : f.locations = none)
    (hp : it.place_id = none) (hlab : it.label = none) (hcity : it.city = none)
    (s c : String) (hs : it.state = some s) (hc : it.country = some c) :
    dictGet? (buildSearchFilters f) "locations" = none ∧
    it.model_dump = JVal.obj [("state", JVal.str s), ("country", JVal.str c)] ∧
    dictGet? (buildSearchFilters
        { locations := some { «include» := some [], exclude := some [] } }) "locations"
      = some (JVal.obj [("include", JVal.arr []), ("exclude", JVal.arr [])]) := by
  refine ⟨?_, ?_, rfl⟩
  · rw [buildSearchFilters_eq, dictGet?_model_dump_locations, hf]; rfl
  · simp [LocationItem.model_dump, hp, hlab, hcity, hs, hc, optField]

/-- Witness for C4 (amended) at a concrete input: no locations filter, and a
California / United States item. -/
theorem C4_locations_amended_witness :
    (({} : SuperSearchFilters).locations = none) ∧
    (({ state := some "California", country := some "United States" } : LocationItem).place_id
       = none) ∧
    (dictGet? (buildSearchFilters {}) "locations" = none ∧
     LocationItem.model_dump { state := some "California", country := some "United States" }
       = JVal.obj [("state", JVal.str "California"), ("country", JVal.str "United States")] ∧
     dictGet? (buildSearchFilters
        { locations := some { «include» := some [], exclude := some [] } }) "locations"
       = some (JVal.obj [("include", JVal.arr []), ("exclude", JVal.arr [])])) :=
  ⟨rfl, rfl,
   C4_locations_amended {} { state := some "California", country := some "United States" }
     rfl rfl rfl rfl "California" "United States" rfl rfl⟩

/-- C7: when the transport raises, `search_supersearch_leads`, `count_leads`
and `preview_leads` catch the fault and return (to be serialized) a JSON object
with exactly the keys `error` (the error text) and `debug_payload` (the exact
outbound body), issuing exactly one request (no retry); while
`get_enrichment_status` and `get_enrichment_history` let the exception
propagate to the caller unmodified. -/
theorem C7_transport_fault_semantics (ps : SearchSuperSearchLeadsInput)
    (pc : CountLeadsInput) (pp : PreviewLeadsInput)
    (pg : GetEnrichmentStatusInput) (ph : GetEnrichmentHistoryInput) (e : String) :
    (search_supersearch_leads ps (Except.error e)).result
        = Except.ok (JVal.obj [("error", JVal.str e),
            ("debug_payload", JVal.obj (search_supersearch_leads_body ps))]) ∧
    (search_supersearch_leads ps (Except.error e)).requests.length = 1 ∧
    (count_leads pc (Except.error e)).result
        = Except.ok (JVal.obj [("error", JVal.str e),
            ("debug_payload", JVal.obj (count_leads_body pc))]) ∧
    (count_leads pc (Except.error e)).requests.length = 1 ∧
    (preview_leads pp (Except.error e)).result
        = Except.ok (JVal.obj [("error", JVal.str e),
            ("debug_payload", JVal.obj (preview_leads_body pp))]) ∧
    (preview_leads pp (Except.error e)).requests.length = 1 ∧
    (get_enrichment_status pg (Except.error e)).result = Except.error e ∧
    (get_enrichment_history ph (Except.error e)).result = Except.error e :=
  ⟨rfl, rfl, rfl, rfl, rfl, rfl, rfl, rfl⟩

/-- C8: calling `update_enrichment_settings` with none of auto_update,
skip_rows_without_email and is_evergreen set returns the structured
`error`/`hint` object and performs no network call whatever the transport
would have answered. -/
theorem C8_no_settings_no_network (p : UpdateEnrichmentSettingsInput)
    (tr : Except String JVal)
    (h1 : p.auto_update = none) (h2 : p.skip_rows_without_email = none)
    (h3 : p.is_evergreen = none) :
    (update_enrichment_settings p tr).result
        = Except.ok (JVal.obj
            [("error", JVal.str "No settings provided to update"),
             ("hint", JVal.str "Provide at least one of: auto_update, skip_rows_without_email, is_evergreen")]) ∧
    (update_enrichment_settings p tr).requests = [] := by
  constructor <;> simp [update_enrichment_settings, h1, h2, h3]

/-- Witness for C8 at a concrete input with all three settings unset. -/
theorem C8_no_settings_no_network_witness :
    (({ resource_id := "res-1" } : UpdateEnrichmentSettingsInput).auto_update = none) ∧
    (({ resource_id := "res-1" } : UpdateEnrichmentSettingsInput).skip_rows_without_email = none) ∧
    (({ resource_id := "res-1" } : UpdateEnrichmentSettingsInput).is_evergreen = none) ∧
    ((update_enrichment_settings { resource_id := "res-1" } (Except.ok JVal.null)).result
        = Except.ok (JVal.obj
            [("error", JVal.str "No settings provided to update"),
             ("hint", JVal.str "Provide at least one of: auto_update, skip_rows_without_email, is_evergreen")]) ∧
     (update_enrichment_settings { resource_id := "res-1" } (Except.ok JVal.null)).requests = []) :=
  ⟨rfl, rfl, rfl,
   C8_no_settings_no_network { resource_id := "res-1" } (Except.ok JVal.null) rfl rfl rfl⟩

/-- C10 counterexample: validation does NOT reject an empty resource
identifier - constructing `GetEnrichmentStatusInput` with `resource_id` the
empty string succeeds, contradicting the claim that a missing or empty
resource identifier is rejected. -/
theorem C10_counterexample :
    validateResourceId (some "") = Except.ok "" ∧
    (∀ tr, (get_enrichment_status_endpoint (some "") tr).requests.length = 1) :=
  ⟨rfl, fun tr => by cases tr <;> rfl⟩

/-- C10 (amended): before any network call, validation rejects a limit outside
[1, 10000] for `search_supersearch_leads` and outside [1, 100] for
`get_enrichment_history`, and rejects a missing resource identifier; an empty
(or whitespace-only, stripped to empty) resource identifier however passes
validation, since the model requires only presence, not non-emptiness. -/
theorem C10_validation_amended (n m : Int) (s : String) (tr : Except String JVal)
    (hn : n < 1 ∨ 10000 < n) (hm : m < 1 ∨ 100 < m) :
    (∃ msg, validateSearchLeadsLimit (some n) = Except.error msg) ∧
    (∃ msg, validateHistoryLimit (some m) = Except.error msg) ∧
    validateResourceId none = Except.error "Field required" ∧
    (get_enrichment_status_endpoint none tr).requests = [] ∧
    validateResourceId (some s) = Except.ok (pyStrip s) := by
  refine ⟨?_, ?_, rfl, rfl, rfl⟩
  · rcases hn with h | h
    · exact ⟨"Input should be greater than or equal to 1",
        by simp [validateSearchLeadsLimit, h]⟩
    · have h2 : ¬n < 1 := by omega
      exact ⟨"Input should be less than or equal to 10000",
        by simp [validateSearchLeadsLimit, h, h2]⟩
  · rcases hm with h | h
    · exact ⟨"Input should be greater than or equal to 1",
        by simp [validateHistoryLimit, h]⟩
    · have h2 : ¬m < 1 := by omega
      exact ⟨"Input should be less than or equal to 100",
        by simp [validateHistoryLimit, h, h2]⟩

/-- Witness for C10 (amended) at concrete out-of-range limits and a concrete
whitespace resource id. -/
theorem C10_validation_amended_witness :
    ((0 : Int) < 1 ∨ (10000 : Int) < 0) ∧
    ((200 : Int) < 1 ∨ (100 : Int) < 200) ∧
    ((∃ msg, validateSearchLeadsLimit (some 0) = Except.error msg) ∧
     (∃ msg, validateHistoryLimit (some 200) = Except.error msg) ∧
     validateResourceId none = Except.error "Field required" ∧
     (get_enrichment_status_endpoint none (Except.ok JVal.null)).requests = [] ∧
     validateResourceId (some " abc ") = Except.ok (pyStrip " abc ")) :=
  ⟨Or.inl (by decide), Or.inr (by decide),
   C10_validation_amended 0 200 " abc " (Except.ok JVal.null)
     (Or.inl (by decide)) (Or.inr (by decide))⟩

/-- C2: for every `CreateAIEnrichmentInput` instance and any transport,
`create_ai_enrichment` fails with an AttributeError on `params.resource_type`
before any network call, because the adapter reads `resource_type`,
`model_version`, `overwrite` and `limit`, none of which the model declares (it
declares resource_id, prompt, output_column, model, input_columns); and the
tools module imports CountLeadsInput, PreviewLeadsInput and
UpdateEnrichmentSettingsInput, which the models module never defines. -/
theorem C2_ai_enrichment_attribute_error (o : PyObject) (tr : Except String JVal)
    (ho : isCreateAIEnrichmentInstance o) :
    (create_ai_enrichment o tr).result = Except.error "AttributeError: resource_type" ∧
    (create_ai_enrichment o tr).requests = [] ∧
    "resource_type" ∉ createAIEnrichmentInputFields ∧
    "model_version" ∉ createAIEnrichmentInputFields ∧
    "overwrite" ∉ createAIEnrichmentInputFields ∧
    "limit" ∉ createAIEnrichmentInputFields ∧
    "resource_id" ∈ createAIEnrichmentInputFields ∧
    "prompt" ∈ createAIEnrichmentInputFields ∧
    "output_column" ∈ createAIEnrichmentInputFields ∧
    "model" ∈ createAIEnrichmentInputFields ∧
    "input_columns" ∈ createAIEnrichmentInputFields ∧
    "CountLeadsInput" ∉ supersearchModelsDefinedNames ∧
    "PreviewLeadsInput" ∉ supersearchModelsDefinedNames ∧
    "UpdateEnrichmentSettingsInput" ∉ supersearchModelsDefinedNames ∧
    "CountLeadsInput" ∈ supersearchToolsImportedNames ∧
    "PreviewLeadsInput" ∈ supersearchToolsImportedNames ∧
    "UpdateEnrichmentSettingsInput" ∈ supersearchToolsImportedNames := by
  obtain ⟨attrs⟩ := o
  have ho' : attrs.map Prod.fst
      = ["resource_id", "prompt", "output_column", "model", "input_columns"] := ho
  rcases attrs with _ | ⟨⟨k1, v1⟩, attrs⟩
  · simp at ho'
  simp only [List.map_cons, List.cons.injEq] at ho'
  obtain ⟨rfl, ho'⟩ := ho'
  rcases attrs with _ | ⟨⟨k2, v2⟩, attrs⟩
  · simp at ho'
  simp only [List.map_cons, List.cons.injEq] at ho'
  obtain ⟨rfl, ho'⟩ := ho'
  rcases attrs with _ | ⟨⟨k3, v3⟩, attrs⟩
  · simp at ho'
  simp only [List.map_cons, List.cons.injEq] at ho'
  obtain ⟨rfl, ho'⟩ := ho'
  rcases attrs with _ | ⟨⟨k4, v4⟩, attrs⟩
  · simp at ho'
  simp only [List.map_cons, List.cons.injEq] at ho'
  obtain ⟨rfl, ho'⟩ := ho'
  rcases attrs with _ | ⟨⟨k5, v5⟩, attrs⟩
  · simp at ho'
  simp only [List.map_cons, List.cons.injEq] at ho'
  obtain ⟨rfl, ho'⟩ := ho'
  have hnil : attrs = [] := List.map_eq_nil_iff.mp ho'
  subst hnil
  exact ⟨rfl, rfl, by decide, by decide, by decide, by decide, by decide, by decide,
    by decide, by decide, by decide, by decide, by decide, by decide, by decide,
    by decide, by decide⟩

/-- Witness for C2 at a concrete instance carrying exactly the declared
fields. -/
theorem C2_ai_enrichment_attribute_error_witness :
    isCreateAIEnrichmentInstance
      { attrs := [("resource_id", JVal.str "r"), ("prompt", JVal.str "p"),
                  ("output_column", JVal.str "o"), ("model", JVal.str "gpt-4o-mini"),
                  ("input_columns", JVal.null)] } ∧
    (create_ai_enrichment
      { attrs := [("resource_id", JVal.str "r"), ("prompt", JVal.str "p"),
                  ("output_column", JVal.str "o"), ("model", JVal.str "gpt-4o-mini"),
                  ("input_columns", JVal.null)] }
      (Except.ok (JVal.obj []))).result = Except.error "AttributeError: resource_type" ∧
    (create_ai_enrichment
      { attrs := [("resource_id", JVal.str "r"), ("prompt", JVal.str "p"),
                  ("output_column", JVal.str "o"), ("model", JVal.str "gpt-4o-mini"),
                  ("input_columns", JVal.null)] }
      (Except.ok (JVal.obj []))).requests = [] :=
  ⟨rfl,
   (C2_ai_enrichment_attribute_error
      { attrs := [("resource_id", JVal.str "r"), ("prompt", JVal.str "p"),
                  ("output_column", JVal.str "o"), ("model", JVal.str "gpt-4o-mini"),
                  ("input_columns", JVal.null)] }
      (Except.ok (JVal.obj [])) rfl).1,
   (C2_ai_enrichment_attribute_error
      { attrs := [("resource_id", JVal.str "r"), ("prompt", JVal.str "p"),
                  ("output_column", JVal.str "o"), ("model", JVal.str "gpt-4o-mini"),
                  ("input_columns", JVal.null)] }
      (Except.ok (JVal.obj [])) rfl).2.1⟩
